import Mathlib

/-!
# stark-raise: the campaign synchronisation logic of `crowdfunding.jsx`

A shallow embedding of the React component `Crowdfunding`
(`src/frontend/src/components/crowdfunding.jsx`): its state, the two data
effects (`fetchCampaignCount`, `fetchCampaigns`), the four handlers
(`createCampaign`, `contribute`, `claimFunds`, `claimRefund`) and its render
function, followed by the properties proved about them.

Every `async` function is embedded as a value of `Prog`: the state setters it
calls and the ledger calls it awaits, in program order, with the `try`/`catch`/
`finally` structure written out as continuations.  `run` executes such a program
against a ledger that answers every call; `advance`/`resume` execute it one
suspension point at a time, so that two runs can be interleaved.
-/

namespace StarkRaise

/-! ## Amounts -/

/-- The two-word form of a 256-bit amount used on the ledger side. -/
structure Uint256 where
  low : Nat
  high : Nat
  deriving DecidableEq, Repr

/-- The largest value of one 128-bit word. -/
def UINT_128_MAX : Nat := 2 ^ 128 - 1

/-- The largest 256-bit amount. -/
def UINT_256_MAX : Nat := 2 ^ 256 - 1

/-- Modelled from the spec: `uint256.bnToUint256` of the `starknet` package, which
the component imports and which is not part of the sources.  The spec's
`encode`: the amount is split into two 128-bit words, and a value that is
negative or does not fit 256 bits is refused.  The argument is the big integer
the package first converts its input to. -/
def bnToUint256 (bn : Int) : Except String Uint256 :=
  if 0 ≤ bn ∧ bn ≤ (UINT_256_MAX : Int) then
    .ok { low := bn.toNat &&& UINT_128_MAX, high := bn.toNat >>> 128 }
  else
    .error "Number is too large"

/-- Modelled from the spec: `uint256.uint256ToBN` of the `starknet` package, the
spec's `decode` up to the final `toString()`: the two words are put back
together. -/
def uint256ToBN (u : Uint256) : Nat :=
  (u.high <<< 128) + u.low

/-- The decimal text of a non-negative big integer, as `toString()` gives it. -/
def decimal (n : Nat) : String := Nat.repr n

/-- JavaScript `Number(x.toString())` for a non-negative integer `x`: the nearest
double-precision value, ties to even.  It is `x` itself below `2 ^ 53`.
(Integers of `2 ^ 1024` and more, which give `Infinity`, do not occur: ledger
integers have at most 256 bits.) -/
def Number (n : Nat) : Nat :=
  if n < 2 ^ 53 then n
  else
    let shift := Nat.log2 n - 52
    let q := n / 2 ^ shift
    let r := n % 2 ^ shift
    let half := 2 ^ (shift - 1)
    if r < half then q * 2 ^ shift
    else if half < r then (q + 1) * 2 ^ shift
    else if q % 2 = 0 then q * 2 ^ shift
    else (q + 1) * 2 ^ shift

/-! ## Records -/

/-- A ledger account address. -/
abbrev Address := Nat

/-- The hash of a submitted transaction (`tx.transaction_hash`). -/
abbrev TxHash := Nat

/-- The object `contract.get_campaign(id)` resolves to, with the five fields the
component reads from it (spec §6: `creator`, `goal`, `deadline`,
`amountRaised`, `claimed`); the contract's ABI is not part of the sources. -/
structure LedgerCampaign where
  creator : Address
  goal : Uint256
  deadline : Nat
  amount_raised : Uint256
  claimed : Bool
  deriving DecidableEq, Repr

/-- An amount field of a stored record: the decimal string `fetchCampaigns` and
`contribute` store, or the ledger's two-word value that the object spread of
`claimFunds`/`claimRefund` copies in unconverted. -/
inductive AmountField where
  | text (s : String)
  | words (u : Uint256)
  deriving DecidableEq, Repr

/-- The deadline field of a stored record: the number `fetchCampaigns` stores, or
the ledger's big integer that the object spread of `claimFunds`/`claimRefund`
copies in unconverted. -/
inductive DeadlineField where
  | number (n : Nat)
  | bigint (n : Nat)
  deriving DecidableEq, Repr

/-- The numeric value of a deadline field, as a comparison reads it. -/
def DeadlineField.value : DeadlineField → Nat
  | .number n => n
  | .bigint n => n

/-- One element of the `campaigns` state. -/
structure Campaign where
  id : Nat
  creator : Address
  goal : AmountField
  deadline : DeadlineField
  amount_raised : AmountField
  claimed : Bool
  deriving DecidableEq, Repr

/-- The `newCampaign` form state. -/
structure NewCampaign where
  goal : String
  deadline : String
  deriving DecidableEq, Repr

/-- The component state: one field per `useState` of `Crowdfunding`.  `contract`
records whether the contract object is set (non-null). -/
structure State where
  contract : Bool
  campaigns : List Campaign
  newCampaign : NewCampaign
  campaignCount : Nat
  loading : Bool
  error : Option String
  contributionAmount : String
  deriving DecidableEq, Repr

/-- The state of the first render (the `useState` initial values). -/
def initialState : State where
  contract := false
  campaigns := []
  newCampaign := { goal := "", deadline := "" }
  campaignCount := 0
  loading := true
  error := none
  contributionAmount := ""

/-- State setter `setContract`. -/
def setContract (v : Bool) (s : State) : State := { s with contract := v }

/-- State setter `setCampaigns`. -/
def setCampaigns (v : List Campaign) (s : State) : State := { s with campaigns := v }

/-- State setter `setNewCampaign`. -/
def setNewCampaign (v : NewCampaign) (s : State) : State := { s with newCampaign := v }

/-- State setter `setCampaignCount`. -/
def setCampaignCount (v : Nat) (s : State) : State := { s with campaignCount := v }

/-- State setter `setLoading`. -/
def setLoading (v : Bool) (s : State) : State := { s with loading := v }

/-- State setter `setError`. -/
def setError (v : String) (s : State) : State := { s with error := some v }

/-! ## Ledger calls and asynchronous programs -/

/-- The state-changing contract calls. -/
inductive Invoke where
  | create_campaign (goal : Uint256) (deadline : String)
  | contribute (campaignId : Nat) (amount : Uint256)
  | claim_funds (campaignId : Nat)
  | claim_refund (campaignId : Nat)
  deriving DecidableEq, Repr

/-- Every request the component sends to the contract or the provider. -/
inductive Call where
  | get_campaign_count
  | get_campaign (campaignId : Nat)
  | invoke (c : Invoke)
  | waitForTransaction (tx : TxHash)
  deriving DecidableEq, Repr

/-- An `async` function body: state setter calls and awaited requests in program
order.  The continuation of an awaited request receives its outcome, `.ok` for a
fulfilled promise and `.error` for a rejected one (a thrown exception).
`get_campaigns ids k` is the `Promise.all` of `fetchCampaigns`: the requests
`get_campaign id` for all `ids` are sent at once and `k` receives the outcome of
each. -/
inductive Prog where
  | done : Prog
  | set (f : State → State) (next : Prog) : Prog
  | get_campaign_count (k : Except String Nat → Prog) : Prog
  | get_campaign (campaignId : Nat) (k : Except String LedgerCampaign → Prog) : Prog
  | get_campaigns (ids : List Nat) (k : (Nat → Except String LedgerCampaign) → Prog) : Prog
  | invoke (c : Invoke) (k : Except String TxHash → Prog) : Prog
  | waitForTransaction (tx : TxHash) (k : Except String Unit → Prog) : Prog

/-- The outcome of `Promise.all`: all values when every promise is fulfilled, a
rejection as soon as one is rejected. -/
def promiseAll {α : Type} : List (Except String α) → Except String (List α)
  | [] => .ok []
  | .error e :: _ => .error e
  | .ok a :: rest =>
    match promiseAll rest with
    | .ok as => .ok (a :: as)
    | .error e => .error e

/-! ## The component's functions -/

/-- The contract initialisation effect (lines 21-43): with a provider and the
three environment values present, the contract object is set. -/
def initContract (provider envDefined : Bool) : Prog :=
  if provider then
    if envDefined then .set (setContract true) .done
    else .set (setError "Failed to initialize contract: Missing environment variables") .done
  else .done

/-- The effect `fetchCampaignCount` (lines 45-60), as defined by a render with
state `r`. -/
def fetchCampaignCount (r : State) : Prog :=
  if r.contract then
    .get_campaign_count fun
      | .ok count => .set (setCampaignCount (Number count)) .done
      | .error e => .set (setError ("Failed to fetch campaign count: " ++ e)) .done
  else .done

/-- The record the mapper of `fetchCampaigns` returns for index `i = id - 1`
(lines 70-77). -/
def fetchedCampaign (id : Nat) (campaign : LedgerCampaign) : Campaign where
  id := id
  creator := campaign.creator
  goal := .text (decimal (uint256ToBN campaign.goal))
  deadline := .number (Number campaign.deadline)
  amount_raised := .text (decimal (uint256ToBN campaign.amount_raised))
  claimed := campaign.claimed

/-- The effect `fetchCampaigns` (lines 62-90), as defined by a render with state
`r`: the full refresh.  `Array.from({ length: campaignCount }, ...)` creates an
array of that length, which throws a `RangeError` for a length of `2 ^ 32` or
more: inside the `try`, before any request is sent. -/
def fetchCampaigns (r : State) : Prog :=
  if r.contract ∧ 0 < r.campaignCount then
    .set (setLoading true) <|
    if 2 ^ 32 ≤ r.campaignCount then
      .set (setError "Failed to fetch campaigns") <| .set (setLoading false) .done
    else
      .get_campaigns ((List.range r.campaignCount).map (· + 1)) fun campaign =>
        match promiseAll ((List.range r.campaignCount).map fun i =>
            (campaign (i + 1)).map (fetchedCampaign (i + 1))) with
        | .ok fetchedCampaigns =>
          .set (setCampaigns fetchedCampaigns) <| .set (setLoading false) .done
        | .error _ =>
          .set (setError "Failed to fetch campaigns") <| .set (setLoading false) .done
  else .done

/-- The `catch` and `finally` blocks shared by the four handlers. -/
def failed (message : String) : Prog :=
  .set (setError message) <| .set (setLoading false) .done

/-- The handler `createCampaign` (lines 92-111), as defined by a render with
state `r`.  `BigInt` is JavaScript's conversion of a form string to a big
integer (`none` when it throws). -/
def createCampaign (BigInt : String → Option Int) (r : State) : Prog :=
  if r.contract then
    .set (setLoading true) <|
    match BigInt r.newCampaign.goal with
    | none => failed "Failed to create campaign"
    | some bn =>
      match bnToUint256 bn with
      | .error _ => failed "Failed to create campaign"
      | .ok goal =>
        .invoke (.create_campaign goal r.newCampaign.deadline) fun
          | .error _ => failed "Failed to create campaign"
          | .ok tx =>
            .waitForTransaction tx fun
              | .error _ => failed "Failed to create campaign"
              | .ok _ =>
                .get_campaign_count fun
                  | .error _ => failed "Failed to create campaign"
                  | .ok newCount =>
                    .set (setCampaignCount (Number newCount)) <|
                    .set (setNewCampaign { goal := "", deadline := "" }) <|
                    .set (setLoading false) .done
  else .done

/-- The handler `contribute` (lines 113-136), as defined by a render with state
`r`. -/
def contribute (BigInt : String → Option Int) (r : State) (campaignId : Nat) : Prog :=
  if r.contract ∧ r.contributionAmount ≠ "" then
    .set (setLoading true) <|
    match BigInt r.contributionAmount with
    | none => failed "Failed to contribute to campaign"
    | some bn =>
      match bnToUint256 bn with
      | .error _ => failed "Failed to contribute to campaign"
      | .ok amount =>
        .invoke (.contribute campaignId amount) fun
          | .error _ => failed "Failed to contribute to campaign"
          | .ok tx =>
            .waitForTransaction tx fun
              | .error _ => failed "Failed to contribute to campaign"
              | .ok _ =>
                .get_campaign campaignId fun
                  | .error _ => failed "Failed to contribute to campaign"
                  | .ok updatedCampaign =>
                    .set (setCampaigns (r.campaigns.map fun c =>
                      if c.id = campaignId then
                        { c with amount_raised :=
                            .text (decimal (uint256ToBN updatedCampaign.amount_raised)) }
                      else c)) <|
                    .set (setLoading false) .done
  else .done

/-- The object spread `{ ...c, ...updatedCampaign }` of `claimFunds` and
`claimRefund`: the five fields of the ledger object overwrite those of `c`,
unconverted; `id`, which the ledger object does not have, is kept. -/
def spread (c : Campaign) (updatedCampaign : LedgerCampaign) : Campaign where
  id := c.id
  creator := updatedCampaign.creator
  goal := .words updatedCampaign.goal
  deadline := .bigint updatedCampaign.deadline
  amount_raised := .words updatedCampaign.amount_raised
  claimed := updatedCampaign.claimed

/-- The handler `claimFunds` (lines 138-153), as defined by a render with state
`r`. -/
def claimFunds (r : State) (campaignId : Nat) : Prog :=
  if r.contract then
    .set (setLoading true) <|
    .invoke (.claim_funds campaignId) fun
      | .error _ => failed "Failed to claim funds"
      | .ok tx =>
        .waitForTransaction tx fun
          | .error _ => failed "Failed to claim funds"
          | .ok _ =>
            .get_campaign campaignId fun
              | .error _ => failed "Failed to claim funds"
              | .ok updatedCampaign =>
                .set (setCampaigns (r.campaigns.map fun c =>
                  if c.id = campaignId then spread c updatedCampaign else c)) <|
                .set (setLoading false) .done
  else .done

/-- The handler `claimRefund` (lines 155-170), as defined by a render with state
`r`. -/
def claimRefund (r : State) (campaignId : Nat) : Prog :=
  if r.contract then
    .set (setLoading true) <|
    .invoke (.claim_refund campaignId) fun
      | .error _ => failed "Failed to claim refund"
      | .ok tx =>
        .waitForTransaction tx fun
          | .error _ => failed "Failed to claim refund"
          | .ok _ =>
            .get_campaign campaignId fun
              | .error _ => failed "Failed to claim refund"
              | .ok updatedCampaign =>
                .set (setCampaigns (r.campaigns.map fun c =>
                  if c.id = campaignId then spread c updatedCampaign else c)) <|
                .set (setLoading false) .done
  else .done

/-! ## Execution against a ledger -/

/-- The component state together with the requests sent so far, oldest first. -/
structure World where
  state : State
  calls : List Call
  deriving DecidableEq, Repr

/-- Record a request as sent. -/
def World.send (w : World) (c : Call) : World := { w with calls := w.calls ++ [c] }

/-- The outcomes the contract and the provider give to the requests of one run. -/
structure Ledger where
  get_campaign_count : Except String Nat
  get_campaign : Nat → Except String LedgerCampaign
  invoke : Invoke → Except String TxHash
  waitForTransaction : TxHash → Except String Unit

/-- Run an asynchronous program to completion, every awaited request being
answered by the ledger `L`. -/
def run (L : Ledger) : Prog → World → World
  | .done, w => w
  | .set f next, w => run L next { w with state := f w.state }
  | .get_campaign_count k, w =>
    run L (k L.get_campaign_count) (w.send .get_campaign_count)
  | .get_campaign campaignId k, w =>
    run L (k (L.get_campaign campaignId)) (w.send (.get_campaign campaignId))
  | .get_campaigns ids k, w =>
    run L (k L.get_campaign) { w with calls := w.calls ++ ids.map .get_campaign }
  | .invoke c k, w => run L (k (L.invoke c)) (w.send (.invoke c))
  | .waitForTransaction tx k, w =>
    run L (k (L.waitForTransaction tx)) (w.send (.waitForTransaction tx))

/-- The effect `fetchCampaigns` has the dependencies `[contract, campaignCount]`:
after a render whose values differ from those of the previous render `prev`, it
runs with the new values. -/
def fetchCampaignsEffect (L : Ledger) (prev : State) (w : World) : World :=
  if w.state.contract ≠ prev.contract ∨ w.state.campaignCount ≠ prev.campaignCount then
    run L (fetchCampaigns w.state) w
  else w

/-- A click on Create Campaign carried through: the handler runs, and the render
that follows runs the `fetchCampaigns` effect if its dependencies changed. -/
def createCampaignAndRefresh (BigInt : String → Option Int) (L : Ledger) (w : World) : World :=
  fetchCampaignsEffect L w.state (run L (createCampaign BigInt w.state) w)

/-! ## Execution one suspension point at a time -/

/-- An outcome delivered to a program suspended at an awaited request. -/
inductive Reply where
  | count (r : Except String Nat)
  | campaign (r : Except String LedgerCampaign)
  | campaigns (r : Nat → Except String LedgerCampaign)
  | tx (r : Except String TxHash)
  | confirmed (r : Except String Unit)

/-- Run the synchronous part of a program: the setters are applied in order; at
an awaited request the request is recorded as sent and the program stops there,
suspended. -/
def advance : Prog → World → World × Option Prog
  | .done, w => (w, none)
  | .set f next, w => advance next { w with state := f w.state }
  | .get_campaign_count k, w =>
    (w.send .get_campaign_count, some (.get_campaign_count k))
  | .get_campaign campaignId k, w =>
    (w.send (.get_campaign campaignId), some (.get_campaign campaignId k))
  | .get_campaigns ids k, w =>
    ({ w with calls := w.calls ++ ids.map .get_campaign }, some (.get_campaigns ids k))
  | .invoke c k, w => (w.send (.invoke c), some (.invoke c k))
  | .waitForTransaction tx k, w =>
    (w.send (.waitForTransaction tx), some (.waitForTransaction tx k))

/-- The continuation of a suspended program for the outcome of the request it
awaits (`none` when the outcome is not one of that request). -/
def resume : Prog → Reply → Option Prog
  | .get_campaign_count k, .count r => some (k r)
  | .get_campaign _ k, .campaign r => some (k r)
  | .get_campaigns _ k, .campaigns r => some (k r)
  | .invoke _ k, .tx r => some (k r)
  | .waitForTransaction _ k, .confirmed r => some (k r)
  | _, _ => none

/-- The component between two events: its state and sent requests, and the runs
that are in flight, each suspended at the request it awaits. -/
structure Config where
  world : World
  pending : List Prog

/-- The component at rest in `w`: no run in flight. -/
def idle (w : World) : Config := { world := w, pending := [] }

/-- A run starts: its synchronous part is executed, and if it reaches an awaited
request it joins the runs in flight. -/
def start (p : Prog) (c : Config) : Config :=
  match advance p c.world with
  | (w, none) => { world := w, pending := c.pending }
  | (w, some q) => { world := w, pending := c.pending ++ [q] }

/-- The request awaited by the run at position `i` settles with `reply`: the run
continues up to its next awaited request or to its end. -/
def deliver (i : Nat) (reply : Reply) (c : Config) : Config :=
  match c.pending[i]? with
  | none => c
  | some q =>
    match resume q reply with
    | none => c
    | some p =>
      match advance p c.world with
      | (w, none) => { world := w, pending := c.pending.eraseIdx i }
      | (w, some q2) => { world := w, pending := c.pending.set i q2 }

/-- The component from mount to rest.  The first commit runs the three effects
of the initial render, in source order.  When that has set the contract, the
next render runs the two effects depending on it: `fetchCampaignCount` sends its
request and is suspended, `fetchCampaigns` of the same render runs, and then the
count arrives; if that changes the count, the render that follows runs
`fetchCampaigns` once more. -/
def mount (provider envDefined : Bool) (L : Ledger) : World :=
  let c1 :=
    start (fetchCampaigns initialState)
      (start (fetchCampaignCount initialState)
        (start (initContract provider envDefined)
          (idle { state := initialState, calls := [] })))
  if c1.world.state.contract ≠ initialState.contract then
    let r := c1.world.state
    let c2 := start (fetchCampaigns r) (start (fetchCampaignCount r) c1)
    let c3 := deliver 0 (.count L.get_campaign_count) c2
    fetchCampaignsEffect L r c3.world
  else c1.world

/-- The outcome the ledger `L` gives to the request a suspended program awaits. -/
def Ledger.reply (L : Ledger) : Prog → Option Reply
  | .get_campaign_count _ => some (.count L.get_campaign_count)
  | .get_campaign campaignId _ => some (.campaign (L.get_campaign campaignId))
  | .get_campaigns _ _ => some (.campaigns L.get_campaign)
  | .invoke c _ => some (.tx (L.invoke c))
  | .waitForTransaction tx _ => some (.confirmed (L.waitForTransaction tx))
  | _ => none

/-! ## The render function -/

/-- What a render gives (lines 172-248): the loading text, the error text, the
page, or an exception thrown while the page is built. -/
inductive View where
  | loading
  | error (message : String)
  | page
  | thrown (exception : String)
  deriving DecidableEq, Repr

/-- The render function.  After the two guards `if (loading) ...` and
`if (error) ...` (a non-empty string) the page is built: the heading, the Create
Campaign form, and one row per campaign.  Building the first row throws:
`campaign.deadline * 1000` (line 214) is a `TypeError` when the deadline is a
big integer, and otherwise the `disabled` expression of the Claim Funds button
(line 233) reads `account`, which is bound only inside `initContract`, with
`loading` false at that point.  So the page is obtained only without campaigns,
and no Contribute, Claim Funds or Claim Refund button is ever obtained.  The
clock value `new Date().getTime()` of line 240 is therefore never read. -/
def render (_nowMs : Nat) (s : State) : View :=
  if s.loading then .loading
  else if s.error.any (· ≠ "") then .error (s.error.getD "")
  else
    match s.campaigns with
    | [] => .page
    | campaign :: _ =>
      match campaign.deadline with
      | .bigint _ => .thrown "TypeError: Cannot mix BigInt and other types"
      | .number _ => .thrown "ReferenceError: account is not defined"

/-! ## Vocabulary of the properties -/

/-- The submission of the transaction `c`, the wait for its confirmation, or the
re-read that follows (`reread` tells whether that read succeeds) fails. -/
def failsAt (L : Ledger) (c : Invoke) (reread : Bool) : Bool :=
  match L.invoke c with
  | .error _ => true
  | .ok tx =>
    match L.waitForTransaction tx with
    | .error _ => true
    | .ok _ => !reread

/-- An action that started in `before` has ended in `after` as a failure: the
campaigns list and the campaign count are those of `before`, the error is set
to `message`, and the loading flag is false. -/
def EndsFailed (message : String) (before after : World) : Prop :=
  after.state.campaigns = before.state.campaigns ∧
    after.state.campaignCount = before.state.campaignCount ∧
    after.state.error = some message ∧ after.state.loading = false

/-- The state a handler that started in `s` leaves when its `catch` block runs. -/
def caught (message : String) (s : State) : State :=
  setLoading false (setError message (setLoading true s))

/-- The configuration in which `contribute(campaignId)`, invoked in `c`, has
submitted its transaction, received the hash `tx`, and awaits the
confirmation. -/
def awaitingConfirmation (BigInt : String → Option Int) (c : Config) (campaignId : Nat)
    (tx : TxHash) : Config :=
  deliver c.pending.length (.tx (.ok tx)) (start (contribute BigInt c.world.state campaignId) c)

/-- After `awaitingConfirmation`: `contribute(campaignId)` is invoked once more,
by the handler of the current state, while the first run awaits its
confirmation. -/
def contributeAgain (BigInt : String → Option Int) (c : Config) (campaignId : Nat)
    (tx : TxHash) : Config :=
  start
    (contribute BigInt (awaitingConfirmation BigInt c campaignId tx).world.state campaignId)
    (awaitingConfirmation BigInt c campaignId tx)

/-- Two full refreshes overlap: in `c`, refresh A starts (defined by a render
with state `rA`), refresh B starts (render state `rB`) before A completes, and B
completes first, every fetch of B succeeding with `rawB`. -/
def newerRefreshDone (c : Config) (rA rB : State) (rawB : Nat → LedgerCampaign) : Config :=
  deliver (c.pending.length + 1) (.campaigns fun id => .ok (rawB id))
    (start (fetchCampaigns rB) (start (fetchCampaigns rA) c))

/-- After `newerRefreshDone`, refresh A completes as well, every fetch of A
succeeding with `rawA`. -/
def olderRefreshDone (c : Config) (rA rB : State) (rawA rawB : Nat → LedgerCampaign) :
    Config :=
  deliver c.pending.length (.campaigns fun id => .ok (rawA id)) (newerRefreshDone c rA rB rawB)

/-! ## Example data -/

/-- A conversion of form strings to big integers that knows the two amounts of
the examples. -/
def exampleBigInt (s : String) : Option Int :=
  if s = "1000" then some 1000 else if s = "500" then some 500 else none

/-- A campaign as the ledger returns it: goal 1000, deadline 1999999999. -/
def ledgerCampaign (amount_raised : Nat) (claimed : Bool) : LedgerCampaign where
  creator := 7
  goal := { low := 1000, high := 0 }
  deadline := 1999999999
  amount_raised := { low := amount_raised, high := 0 }
  claimed := claimed

/-- A stored record of the same campaign, not claimed. -/
def storedCampaign (id : Nat) (amount_raised : String) : Campaign where
  id := id
  creator := 7
  goal := .text "1000"
  deadline := .number 1999999999
  amount_raised := .text amount_raised
  claimed := false

/-- A component at rest with the contract set and both forms filled in. -/
def exampleWorld (campaigns : List Campaign) (campaignCount : Nat) : World where
  state :=
    { contract := true
      campaigns := campaigns
      newCampaign := { goal := "1000", deadline := "1999999999" }
      campaignCount := campaignCount
      loading := false
      error := none
      contributionAmount := "500" }
  calls := []

/-- A ledger that accepts and confirms every transaction. -/
def exampleLedger (count : Nat) (answer : Nat → Except String LedgerCampaign) : Ledger where
  get_campaign_count := .ok count
  get_campaign := answer
  invoke := fun _ => .ok 77
  waitForTransaction := fun _ => .ok ()

/-- A ledger that rejects every transaction at submission. -/
def rejectingLedger (answer : Nat → Except String LedgerCampaign) : Ledger where
  get_campaign_count := .ok 2
  get_campaign := answer
  invoke := fun _ => .error "CallReverted"
  waitForTransaction := fun _ => .ok ()

/-- A ledger on which every transaction is accepted and then fails confirmation. -/
def timingOutLedger (count : Nat) (answer : Nat → Except String LedgerCampaign) : Ledger where
  get_campaign_count := .ok count
  get_campaign := answer
  invoke := fun _ => .ok 77
  waitForTransaction := fun _ => .error "timeout"

/-! ## Theorems: amounts -/

theorem bnToUint256_ofNat (n : Nat) (h : n ≤ UINT_256_MAX) :
    bnToUint256 (n : Int) =
      .ok { low := n % 2 ^ 128, high := n / 2 ^ 128 } := by
  have h1 : (0 : Int) ≤ (n : Int) ∧ (n : Int) ≤ (UINT_256_MAX : Int) :=
    ⟨Int.ofNat_nonneg n, by exact_mod_cast h⟩
  unfold bnToUint256
  rw [if_pos h1]
  simp only [Int.toNat_ofNat, UINT_128_MAX, Nat.and_pow_two_sub_one_eq_mod,
    Nat.shiftRight_eq_div_pow]

/-- C1: for every integer n in [0, 2^256 - 1] the encoding succeeds and decoding
it gives back n, so the decimal string of the decoded value is the decimal
string of n. -/
theorem C1_roundtrip (n : Nat) (h : n ≤ 2 ^ 256 - 1) :
    ∃ u : Uint256, bnToUint256 (n : Int) = .ok u ∧
      uint256ToBN u = n ∧ decimal (uint256ToBN u) = decimal n := by
  refine ⟨{ low := n % 2 ^ 128, high := n / 2 ^ 128 }, bnToUint256_ofNat n h, ?_⟩
  have key : uint256ToBN { low := n % 2 ^ 128, high := n / 2 ^ 128 } = n := by
    simp only [uint256ToBN, Nat.shiftLeft_eq]
    exact Nat.div_add_mod' n (2 ^ 128)
  exact ⟨key, by rw [key]⟩

theorem C1_roundtrip_witness :
    ∃ u : Uint256, bnToUint256 ((2 ^ 200 + 500 : Nat) : Int) = .ok u ∧
      uint256ToBN u = 2 ^ 200 + 500 ∧
      decimal (uint256ToBN u) = decimal (2 ^ 200 + 500) :=
  C1_roundtrip (2 ^ 200 + 500) (by decide)

/-! ## Lemmas: running the programs -/

theorem promiseAll_map_ok {α β : Type} (f : α → Except String β) (g : α → β) :
    ∀ (l : List α), (∀ a ∈ l, f a = .ok (g a)) → promiseAll (l.map f) = .ok (l.map g)
  | [], _ => rfl
  | a :: l, h => by
    have ha := h a (List.mem_cons_self a l)
    have hl := promiseAll_map_ok f g l (fun b hb => h b (List.mem_cons_of_mem a hb))
    simp [promiseAll, ha, hl]

theorem promiseAll_map_error {α β : Type} (f : α → Except String β) :
    ∀ (l : List α) (a : α), a ∈ l → (∃ e, f a = .error e) →
      ∃ e, promiseAll (l.map f) = .error e
  | [], a, h, _ => by cases h
  | b :: l, a, h, he => by
    rw [List.map_cons]
    cases hb : f b with
    | error e => exact ⟨e, by simp [promiseAll]⟩
    | ok v =>
      have hmem : a ∈ l := by
        rcases List.mem_cons.mp h with rfl | h'
        · obtain ⟨e, he⟩ := he; rw [hb] at he; cases he
        · exact h'
      obtain ⟨e, h2⟩ := promiseAll_map_error f l a hmem he
      exact ⟨e, by simp [promiseAll, h2]⟩

theorem run_fetchCampaigns_error (L : Ledger) (r : State) (w : World)
    (hc : r.contract = true) (hn : 0 < r.campaignCount) (hlt : r.campaignCount < 2 ^ 32)
    (e : String)
    (h : promiseAll ((List.range r.campaignCount).map fun i =>
          (L.get_campaign (i + 1)).map (fetchedCampaign (i + 1))) = .error e) :
    run L (fetchCampaigns r) w =
      { state := setLoading false (setError "Failed to fetch campaigns" (setLoading true w.state)),
        calls := w.calls ++ ((List.range r.campaignCount).map (· + 1)).map .get_campaign } := by
  simp only [fetchCampaigns, hc, hn, and_self, if_true, run, Nat.not_le.mpr hlt, if_false]
  rw [h]
  simp only [run]

theorem run_fetchCampaigns_ok (L : Ledger) (r : State) (w : World)
    (hc : r.contract = true) (hn : 0 < r.campaignCount) (hlt : r.campaignCount < 2 ^ 32)
    (cs : List Campaign)
    (h : promiseAll ((List.range r.campaignCount).map fun i =>
          (L.get_campaign (i + 1)).map (fetchedCampaign (i + 1))) = .ok cs) :
    run L (fetchCampaigns r) w =
      { state := setLoading false (setCampaigns cs (setLoading true w.state)),
        calls := w.calls ++ ((List.range r.campaignCount).map (· + 1)).map .get_campaign } := by
  simp only [fetchCampaigns, hc, hn, and_self, if_true, run, Nat.not_le.mpr hlt, if_false]
  rw [h]
  simp only [run]

theorem run_fetchCampaigns_too_long (L : Ledger) (r : State) (w : World)
    (hc : r.contract = true) (hn : 0 < r.campaignCount) (hge : 2 ^ 32 ≤ r.campaignCount) :
    run L (fetchCampaigns r) w =
      { state := setLoading false (setError "Failed to fetch campaigns" (setLoading true w.state)),
        calls := w.calls } := by
  simp only [fetchCampaigns, hc, hn, and_self, if_true, run, hge]

theorem fetched_all (answer : Nat → Except String LedgerCampaign) (n : Nat)
    (raw : Nat → LedgerCampaign)
    (hall : ∀ id, 1 ≤ id → id ≤ n → answer id = .ok (raw id)) :
    promiseAll ((List.range n).map fun i =>
        (answer (i + 1)).map (fetchedCampaign (i + 1))) =
      .ok ((List.range n).map fun i => fetchedCampaign (i + 1) (raw (i + 1))) := by
  apply promiseAll_map_ok
  intro i hi
  rw [List.mem_range] at hi
  rw [hall (i + 1) (by omega) (by omega)]
  rfl

theorem Number_one : Number 1 = 1 := by decide

theorem Number_exact (n : Nat) (h : n < 2 ^ 53) : Number n = n := by
  unfold Number
  rw [if_pos h]

theorem Number_rounds_to_even :
    Number (2 ^ 53 + 1) = 2 ^ 53 ∧ Number (2 ^ 53 + 3) = 2 ^ 53 + 4 ∧
      Number (2 ^ 64 - 1) = 2 ^ 64 := by
  refine ⟨?_, ?_, ?_⟩ <;> norm_num [Number, Nat.log2]

theorem run_createCampaign_ok (BigInt : String → Option Int) (L : Ledger) (w : World)
    (bn : Int) (goal : Uint256) (tx : TxHash) (newCount : Nat)
    (hc : w.state.contract = true)
    (hbn : BigInt w.state.newCampaign.goal = some bn) (hgoal : bnToUint256 bn = .ok goal)
    (htx : L.invoke (.create_campaign goal w.state.newCampaign.deadline) = .ok tx)
    (hwait : L.waitForTransaction tx = .ok ())
    (hcount : L.get_campaign_count = .ok newCount) :
    run L (createCampaign BigInt w.state) w =
      { state := setLoading false (setNewCampaign { goal := "", deadline := "" }
          (setCampaignCount (Number newCount) (setLoading true w.state))),
        calls := w.calls ++ [.invoke (.create_campaign goal w.state.newCampaign.deadline),
          .waitForTransaction tx, .get_campaign_count] } := by
  simp only [createCampaign, hc, if_true, run, hbn, hgoal, htx, hwait, hcount, World.send,
    List.append_assoc, List.singleton_append, List.cons_append, List.nil_append]

theorem fetchCampaignsEffect_same (L : Ledger) (prev : State) (w : World)
    (h1 : w.state.contract = prev.contract)
    (h2 : w.state.campaignCount = prev.campaignCount) :
    fetchCampaignsEffect L prev w = w := by
  simp [fetchCampaignsEffect, h1, h2]

theorem endsFailed_of_caught (message : String) (w w1 : World)
    (h : w1.state = caught message w.state) : EndsFailed message w w1 := by
  unfold EndsFailed
  rw [h]
  exact ⟨rfl, rfl, rfl, rfl⟩

theorem createCampaign_fails (BigInt : String → Option Int) (L : Ledger) (w : World)
    (hc : w.state.contract = true) (bn : Int) (goal : Uint256)
    (hbn : BigInt w.state.newCampaign.goal = some bn) (hgoal : bnToUint256 bn = .ok goal)
    (hf : failsAt L (.create_campaign goal w.state.newCampaign.deadline)
      L.get_campaign_count.isOk = true) :
    (run L (createCampaign BigInt w.state) w).state =
      caught "Failed to create campaign" w.state := by
  unfold failsAt at hf
  simp only [createCampaign, hc, if_true, run, hbn, hgoal]
  cases htx : L.invoke (.create_campaign goal w.state.newCampaign.deadline) with
  | error e => rfl
  | ok tx =>
    simp only [htx] at hf
    simp only [run]
    cases hw : L.waitForTransaction tx with
    | error e => rfl
    | ok u =>
      simp only [hw] at hf
      simp only [run]
      cases hr : L.get_campaign_count with
      | error e => rfl
      | ok n => simp [hr, Except.isOk, Except.toBool] at hf

theorem contribute_fails (BigInt : String → Option Int) (L : Ledger) (w : World)
    (campaignId : Nat)
    (hc : w.state.contract = true) (ha : w.state.contributionAmount ≠ "")
    (bn : Int) (amount : Uint256)
    (hbn : BigInt w.state.contributionAmount = some bn) (hamount : bnToUint256 bn = .ok amount)
    (hf : failsAt L (.contribute campaignId amount) (L.get_campaign campaignId).isOk = true) :
    (run L (contribute BigInt w.state campaignId) w).state =
      caught "Failed to contribute to campaign" w.state := by
  unfold failsAt at hf
  simp only [contribute, hc, ha, ne_eq, not_false_eq_true, and_self, if_true, run, hbn, hamount]
  cases htx : L.invoke (.contribute campaignId amount) with
  | error e => rfl
  | ok tx =>
    simp only [htx] at hf
    simp only [run]
    cases hw : L.waitForTransaction tx with
    | error e => rfl
    | ok u =>
      simp only [hw] at hf
      simp only [run]
      cases hr : L.get_campaign campaignId with
      | error e => rfl
      | ok n => simp [hr, Except.isOk, Except.toBool] at hf

theorem claimFunds_fails (L : Ledger) (w : World) (campaignId : Nat)
    (hc : w.state.contract = true)
    (hf : failsAt L (.claim_funds campaignId) (L.get_campaign campaignId).isOk = true) :
    (run L (claimFunds w.state campaignId) w).state =
      caught "Failed to claim funds" w.state := by
  unfold failsAt at hf
  simp only [claimFunds, hc, if_true, run]
  cases htx : L.invoke (.claim_funds campaignId) with
  | error e => rfl
  | ok tx =>
    simp only [htx] at hf
    simp only [run]
    cases hw : L.waitForTransaction tx with
    | error e => rfl
    | ok u =>
      simp only [hw] at hf
      simp only [run]
      cases hr : L.get_campaign campaignId with
      | error e => rfl
      | ok n => simp [hr, Except.isOk, Except.toBool] at hf

theorem claimRefund_fails (L : Ledger) (w : World) (campaignId : Nat)
    (hc : w.state.contract = true)
    (hf : failsAt L (.claim_refund campaignId) (L.get_campaign campaignId).isOk = true) :
    (run L (claimRefund w.state campaignId) w).state =
      caught "Failed to claim refund" w.state := by
  unfold failsAt at hf
  simp only [claimRefund, hc, if_true, run]
  cases htx : L.invoke (.claim_refund campaignId) with
  | error e => rfl
  | ok tx =>
    simp only [htx] at hf
    simp only [run]
    cases hw : L.waitForTransaction tx with
    | error e => rfl
    | ok u =>
      simp only [hw] at hf
      simp only [run]
      cases hr : L.get_campaign campaignId with
      | error e => rfl
      | ok n => simp [hr, Except.isOk, Except.toBool] at hf

/-! ## Lemmas: stepwise execution -/

/-- Running a program against a ledger is executing it one suspension point at a
time, each awaited request being settled with the ledger's outcome. -/
theorem run_eq_advance (L : Ledger) (p : Prog) :
    ∀ w : World,
      (∀ w1, advance p w = (w1, none) → run L p w = w1) ∧
      (∀ w1 q, advance p w = (w1, some q) →
        ∃ reply p2, L.reply q = some reply ∧ resume q reply = some p2 ∧
          run L p w = run L p2 w1) := by
  induction p with
  | done =>
    intro w
    constructor
    · intro w1 h
      simp only [advance, Prod.mk.injEq, and_true] at h
      rw [← h]; rfl
    · intro w1 q h; simp [advance] at h
  | set f next ih =>
    intro w
    exact ih _
  | get_campaign_count k _ =>
    intro w
    constructor
    · intro w1 h; simp [advance] at h
    · intro w1 q h
      simp only [advance, Prod.mk.injEq, Option.some.injEq] at h
      obtain ⟨rfl, rfl⟩ := h
      exact ⟨_, _, rfl, rfl, rfl⟩
  | get_campaign id k _ =>
    intro w
    constructor
    · intro w1 h; simp [advance] at h
    · intro w1 q h
      simp only [advance, Prod.mk.injEq, Option.some.injEq] at h
      obtain ⟨rfl, rfl⟩ := h
      exact ⟨_, _, rfl, rfl, rfl⟩
  | get_campaigns ids k _ =>
    intro w
    constructor
    · intro w1 h; simp [advance] at h
    · intro w1 q h
      simp only [advance, Prod.mk.injEq, Option.some.injEq] at h
      obtain ⟨rfl, rfl⟩ := h
      exact ⟨_, _, rfl, rfl, rfl⟩
  | invoke c k _ =>
    intro w
    constructor
    · intro w1 h; simp [advance] at h
    · intro w1 q h
      simp only [advance, Prod.mk.injEq, Option.some.injEq] at h
      obtain ⟨rfl, rfl⟩ := h
      exact ⟨_, _, rfl, rfl, rfl⟩
  | waitForTransaction tx k _ =>
    intro w
    constructor
    · intro w1 h; simp [advance] at h
    · intro w1 q h
      simp only [advance, Prod.mk.injEq, Option.some.injEq] at h
      obtain ⟨rfl, rfl⟩ := h
      exact ⟨_, _, rfl, rfl, rfl⟩

theorem getElem?_append_pair {α : Type} (l : List α) (a b : α) :
    (l ++ [a, b])[l.length + 1]? = some b := by
  induction l with
  | nil => rfl
  | cons x l ih => simpa using ih

theorem eraseIdx_append_pair {α : Type} (l : List α) (a b : α) :
    (l ++ [a, b]).eraseIdx (l.length + 1) = l ++ [a] := by
  induction l with
  | nil => rfl
  | cons x l ih => simpa using ih

theorem getElem?_append_last {α : Type} (l : List α) (a : α) :
    (l ++ [a])[l.length]? = some a := by
  induction l with
  | nil => rfl
  | cons x l ih => simp

theorem start_suspended (p : Prog) (c : Config) (w : World) (q : Prog)
    (h : advance p c.world = (w, some q)) :
    start p c = { world := w, pending := c.pending ++ [q] } := by
  simp only [start, h]

theorem deliver_finished (i : Nat) (reply : Reply) (c : Config) (q p : Prog) (w : World)
    (hq : c.pending[i]? = some q) (hr : resume q reply = some p)
    (ha : advance p c.world = (w, none)) :
    deliver i reply c = { world := w, pending := c.pending.eraseIdx i } := by
  simp only [deliver, hq, hr, ha]

theorem fetchCampaigns_steps (r : State) (hc : r.contract = true) (hn : 0 < r.campaignCount)
    (hlt : r.campaignCount < 2 ^ 32) :
    ∃ q : Prog,
      (∀ w, advance (fetchCampaigns r) w =
        ({ state := setLoading true w.state,
           calls := w.calls ++ ((List.range r.campaignCount).map (· + 1)).map .get_campaign },
          some q)) ∧
      ∀ raw : Nat → LedgerCampaign, ∃ p : Prog,
        resume q (.campaigns fun id => .ok (raw id)) = some p ∧
        ∀ w, advance p w =
          ({ w with state := setLoading false (setCampaigns
              ((List.range r.campaignCount).map fun i => fetchedCampaign (i + 1) (raw (i + 1)))
              w.state) }, none) := by
  unfold fetchCampaigns
  rw [if_pos ⟨hc, hn⟩, if_neg (Nat.not_le.mpr hlt)]
  refine ⟨_, fun w => rfl, fun raw => ⟨_, rfl, fun w => ?_⟩⟩
  have h := fetched_all (fun id => .ok (raw id)) r.campaignCount raw (fun _ _ _ => rfl)
  simp only [h, advance]

theorem set_append_last {α : Type} (l : List α) (a b : α) :
    (l ++ [a]).set l.length b = l ++ [b] := by
  induction l with
  | nil => rfl
  | cons x l ih => simp [ih]

theorem getElem?_append_two {α : Type} (l : List α) (a b : α) :
    (l ++ [a, b])[l.length]? = some a := by
  induction l with
  | nil => rfl
  | cons x l ih => simpa using ih

theorem set_append_two {α : Type} (l : List α) (a b d : α) :
    (l ++ [a, b]).set l.length d = l ++ [d, b] := by
  induction l with
  | nil => rfl
  | cons x l ih => simp [ih]

theorem deliver_suspended (i : Nat) (reply : Reply) (c : Config) (q p q2 : Prog) (w : World)
    (hq : c.pending[i]? = some q) (hr : resume q reply = some p)
    (ha : advance p c.world = (w, some q2)) :
    deliver i reply c = { world := w, pending := c.pending.set i q2 } := by
  simp only [deliver, hq, hr, ha]

theorem contribute_steps (BigInt : String → Option Int) (r : State) (campaignId : Nat)
    (bn : Int) (amount : Uint256)
    (hc : r.contract = true) (ha : r.contributionAmount ≠ "")
    (hbn : BigInt r.contributionAmount = some bn) (hamount : bnToUint256 bn = .ok amount) :
    ∃ q1 : Prog,
      (∀ w : World, advance (contribute BigInt r campaignId) w =
        ({ state := setLoading true w.state,
           calls := w.calls ++ [.invoke (.contribute campaignId amount)] }, some q1)) ∧
      ∀ tx : TxHash, ∃ p1 q2 : Prog,
        resume q1 (.tx (.ok tx)) = some p1 ∧
        (∀ w : World, advance p1 w = (w.send (.waitForTransaction tx), some q2)) ∧
        ∃ p2 q3 : Prog,
          resume q2 (.confirmed (.ok ())) = some p2 ∧
          (∀ w : World, advance p2 w = (w.send (.get_campaign campaignId), some q3)) ∧
          ∀ updated : LedgerCampaign, ∃ p3 : Prog,
            resume q3 (.campaign (.ok updated)) = some p3 ∧
            ∀ w : World, advance p3 w =
              ({ w with state := setLoading false (setCampaigns
                  (r.campaigns.map fun c =>
                    if c.id = campaignId then
                      { c with amount_raised :=
                          .text (decimal (uint256ToBN updated.amount_raised)) }
                    else c) w.state) }, none) := by
  unfold contribute
  rw [if_pos ⟨hc, ha⟩]
  simp only [hbn, hamount]
  exact ⟨_, fun w => rfl, fun tx => ⟨_, _, rfl, fun w => rfl, _, _, rfl, fun w => rfl,
    fun updated => ⟨_, rfl, fun w => rfl⟩⟩⟩


/-! ## Theorems: the full refresh -/

/-- C2: with the contract set and a campaign count n > 0, if the fetch of at
least one id in [1, n] fails, then after `fetchCampaigns` the campaigns list is
exactly the list before it, and the error is set (count unchanged, loading
false). -/
theorem C2_no_partial_overwrite (L : Ledger) (w : World)
    (hc : w.state.contract = true) (hn : 0 < w.state.campaignCount)
    (id : Nat) (hid : 1 ≤ id ∧ id ≤ w.state.campaignCount)
    (hfail : ∃ e, L.get_campaign id = .error e) :
    (run L (fetchCampaigns w.state) w).state.campaigns = w.state.campaigns ∧
      (run L (fetchCampaigns w.state) w).state.error = some "Failed to fetch campaigns" ∧
      (run L (fetchCampaigns w.state) w).state.campaignCount = w.state.campaignCount ∧
      (run L (fetchCampaigns w.state) w).state.loading = false := by
  have hmem : id - 1 ∈ List.range w.state.campaignCount := by
    rw [List.mem_range]; omega
  have herr : ∃ e, (fun i => (L.get_campaign (i + 1)).map (fetchedCampaign (i + 1))) (id - 1)
      = .error e := by
    obtain ⟨e, he⟩ := hfail
    have h1 : id - 1 + 1 = id := by omega
    exact ⟨e, by simp only [h1, he]; rfl⟩
  obtain ⟨e, he⟩ := promiseAll_map_error
    (fun i => (L.get_campaign (i + 1)).map (fetchedCampaign (i + 1))) _ _ hmem herr
  by_cases hge : 2 ^ 32 ≤ w.state.campaignCount
  · rw [run_fetchCampaigns_too_long L w.state w hc hn hge]
    exact ⟨rfl, rfl, rfl, rfl⟩
  · rw [run_fetchCampaigns_error L w.state w hc hn (Nat.lt_of_not_le hge) e he]
    exact ⟨rfl, rfl, rfl, rfl⟩

theorem C2_no_partial_overwrite_witness :
    (run (exampleLedger 5 fun id =>
          if id = 3 then .error "NodeUnavailable" else .ok (ledgerCampaign 0 false))
        (fetchCampaigns (exampleWorld [storedCampaign 1 "0"] 5).state)
        (exampleWorld [storedCampaign 1 "0"] 5)).state.campaigns = [storedCampaign 1 "0"] ∧
      (run (exampleLedger 5 fun id =>
          if id = 3 then .error "NodeUnavailable" else .ok (ledgerCampaign 0 false))
        (fetchCampaigns (exampleWorld [storedCampaign 1 "0"] 5).state)
        (exampleWorld [storedCampaign 1 "0"] 5)).state.error =
        some "Failed to fetch campaigns" :=
  have h := C2_no_partial_overwrite
    (exampleLedger 5 fun id =>
      if id = 3 then .error "NodeUnavailable" else .ok (ledgerCampaign 0 false))
    (exampleWorld [storedCampaign 1 "0"] 5) rfl (by decide) 3 (by decide)
    ⟨"NodeUnavailable", rfl⟩
  ⟨h.1, h.2.1⟩

/-- C3, counterexample: the campaign count is 2 ^ 32 and the ledger answers every
fetch.  `fetchCampaigns` sends no request, sets the error and leaves the stored
list (one record) as it was: the list does not hold 2 ^ 32 records. -/
theorem C3_counterexample :
    (run (exampleLedger 4294967296 fun _ => .ok (ledgerCampaign 0 false))
        (fetchCampaigns (exampleWorld [storedCampaign 1 "0"] 4294967296).state)
        (exampleWorld [storedCampaign 1 "0"] 4294967296)).state.campaigns =
      [storedCampaign 1 "0"] ∧
    (run (exampleLedger 4294967296 fun _ => .ok (ledgerCampaign 0 false))
        (fetchCampaigns (exampleWorld [storedCampaign 1 "0"] 4294967296).state)
        (exampleWorld [storedCampaign 1 "0"] 4294967296)).state.error =
      some "Failed to fetch campaigns" ∧
    (run (exampleLedger 4294967296 fun _ => .ok (ledgerCampaign 0 false))
        (fetchCampaigns (exampleWorld [storedCampaign 1 "0"] 4294967296).state)
        (exampleWorld [storedCampaign 1 "0"] 4294967296)).calls = [] := by
  decide

/-- C3, amended: with the contract set, (1) for every campaign count n with
0 < n < 2 ^ 32 for which every ledger fetch succeeds, `fetchCampaigns` sets the
campaigns list to exactly n records, the record at position i being the one
built from the ledger's answer for id i + 1, so that the ids are 1, 2, ..., n in
ascending order; (2) after a confirmed Create that raises the count from 0 to 1,
the list holds exactly one record, with the `claimed` flag and the decoded
`amount_raised` the ledger returned for id 1. -/
theorem C3_full_refresh (L : Ledger) (w : World) (hc : w.state.contract = true) :
    (∀ raw : Nat → LedgerCampaign, 0 < w.state.campaignCount →
      w.state.campaignCount < 2 ^ 32 →
      (∀ id, 1 ≤ id → id ≤ w.state.campaignCount → L.get_campaign id = .ok (raw id)) →
      (run L (fetchCampaigns w.state) w).state.campaigns =
          (List.range w.state.campaignCount).map
            (fun i => fetchedCampaign (i + 1) (raw (i + 1))) ∧
        (run L (fetchCampaigns w.state) w).state.campaigns.length = w.state.campaignCount ∧
        (run L (fetchCampaigns w.state) w).state.campaigns.map (·.id) =
          (List.range w.state.campaignCount).map (· + 1) ∧
        (∀ i, i < w.state.campaignCount →
          (run L (fetchCampaigns w.state) w).state.campaigns[i]? =
            some (fetchedCampaign (i + 1) (raw (i + 1))))) ∧
    (∀ (BigInt : String → Option Int) (bn : Int) (goal : Uint256) (tx : TxHash)
        (first : LedgerCampaign),
      w.state.campaignCount = 0 →
      BigInt w.state.newCampaign.goal = some bn → bnToUint256 bn = .ok goal →
      L.invoke (.create_campaign goal w.state.newCampaign.deadline) = .ok tx →
      L.waitForTransaction tx = .ok () →
      L.get_campaign_count = .ok 1 → L.get_campaign 1 = .ok first →
      (createCampaignAndRefresh BigInt L w).state.campaignCount = 1 ∧
        (createCampaignAndRefresh BigInt L w).state.campaigns =
          [{ id := 1, creator := first.creator,
             goal := .text (decimal (uint256ToBN first.goal)),
             deadline := .number (Number first.deadline),
             amount_raised := .text (decimal (uint256ToBN first.amount_raised)),
             claimed := first.claimed }]) := by
  constructor
  · intro raw hn hlt hall
    have h := run_fetchCampaigns_ok L w.state w hc hn hlt _
      (fetched_all L.get_campaign _ raw hall)
    rw [h]
    refine ⟨rfl, ?_, ?_, ?_⟩
    · simp [setLoading, setCampaigns]
    · simp [setLoading, setCampaigns, fetchedCampaign]
    · intro i hi
      simp [setLoading, setCampaigns, hi]
  · intro BigInt bn goal tx first h0 hbn hgoal htx hwait hcount hfirst
    have h1 := run_createCampaign_ok BigInt L w bn goal tx 1 hc hbn hgoal htx hwait hcount
    have hall : ∀ id, 1 ≤ id → id ≤ 1 → L.get_campaign id = .ok ((fun _ => first) id) := by
      intro id h1 h2
      have : id = 1 := by omega
      rw [this, hfirst]
    have h2 := fetched_all L.get_campaign 1 (fun _ => first) hall
    simp only [createCampaignAndRefresh, fetchCampaignsEffect, h1]
    have hne : (setLoading false (setNewCampaign { goal := "", deadline := "" }
          (setCampaignCount (Number 1) (setLoading true w.state)))).campaignCount
          ≠ w.state.campaignCount := by
      rw [h0]; simp [setLoading, setNewCampaign, setCampaignCount, Number_one]
    rw [if_pos (Or.inr hne)]
    rw [run_fetchCampaigns_ok L _ _
      (by simpa [setLoading, setNewCampaign, setCampaignCount] using hc)
      (by simp [setLoading, setNewCampaign, setCampaignCount, Number_one])
      (by simp [setLoading, setNewCampaign, setCampaignCount, Number_one]) _
      (by simpa [setLoading, setNewCampaign, setCampaignCount, Number_one] using h2)]
    have hr : List.range 1 = [0] := rfl
    simp [setLoading, setCampaigns, setNewCampaign, setCampaignCount, Number_one,
      fetchedCampaign, hr]

theorem C3_full_refresh_witness :
    (run (exampleLedger 2 fun id => .ok (ledgerCampaign (100 * id) false))
        (fetchCampaigns (exampleWorld [] 2).state) (exampleWorld [] 2)).state.campaigns =
      [storedCampaign 1 "100", storedCampaign 2 "200"] ∧
    (createCampaignAndRefresh exampleBigInt
        (exampleLedger 1 fun _ => .ok (ledgerCampaign 0 false))
        (exampleWorld [] 0)).state.campaigns = [storedCampaign 1 "0"] :=
  ⟨((C3_full_refresh (exampleLedger 2 fun id => .ok (ledgerCampaign (100 * id) false))
      (exampleWorld [] 2) rfl).1 (fun id => ledgerCampaign (100 * id) false)
      (by decide) (by decide) (fun _ _ _ => rfl)).1.trans (by decide),
   ((C3_full_refresh (exampleLedger 1 fun _ => .ok (ledgerCampaign 0 false))
      (exampleWorld [] 0) rfl).2 exampleBigInt 1000 { low := 1000, high := 0 } 77
      (ledgerCampaign 0 false) rfl rfl rfl rfl rfl rfl rfl).2.trans (by decide)⟩

/-! ## Theorems: the handlers -/

/-- C4: after a confirmed `contribute(id)` whose re-read succeeds, every record
with that id has as `amount_raised` the decimal string of the `amount_raised`
just read from the ledger (whatever the old local value and the contributed
amount were), and every record with a different id is unchanged, position by
position. -/
theorem C4_contribute_reads_ledger (BigInt : String → Option Int) (L : Ledger) (w : World)
    (campaignId : Nat) (bn : Int) (amount : Uint256) (tx : TxHash) (updated : LedgerCampaign)
    (hc : w.state.contract = true) (ha : w.state.contributionAmount ≠ "")
    (hbn : BigInt w.state.contributionAmount = some bn) (hamount : bnToUint256 bn = .ok amount)
    (htx : L.invoke (.contribute campaignId amount) = .ok tx)
    (hwait : L.waitForTransaction tx = .ok ())
    (hread : L.get_campaign campaignId = .ok updated) :
    (∀ c ∈ (run L (contribute BigInt w.state campaignId) w).state.campaigns,
        c.id = campaignId →
          c.amount_raised = .text (decimal (uint256ToBN updated.amount_raised))) ∧
      (run L (contribute BigInt w.state campaignId) w).state.campaigns.length =
        w.state.campaigns.length ∧
      (∀ (i : Nat) (c : Campaign), w.state.campaigns[i]? = some c →
        (c.id = campaignId →
          (run L (contribute BigInt w.state campaignId) w).state.campaigns[i]? =
            some { c with
              amount_raised := .text (decimal (uint256ToBN updated.amount_raised)) }) ∧
        (c.id ≠ campaignId →
          (run L (contribute BigInt w.state campaignId) w).state.campaigns[i]? = some c)) := by
  have h : (run L (contribute BigInt w.state campaignId) w).state.campaigns =
      w.state.campaigns.map fun c =>
        if c.id = campaignId then
          { c with amount_raised := .text (decimal (uint256ToBN updated.amount_raised)) }
        else c := by
    simp only [contribute, hc, ha, ne_eq, not_false_eq_true, and_self, if_true, run, hbn,
      hamount, htx, hwait, hread, World.send]
    rfl
  rw [h]
  refine ⟨?_, by simp, ?_⟩
  · intro c hcmem hid
    obtain ⟨c0, -, rfl⟩ := List.mem_map.mp hcmem
    by_cases h0 : c0.id = campaignId
    · simp [h0]
    · rw [if_neg h0] at hid
      exact absurd hid h0
  · intro i c hi
    constructor
    · intro hid
      simp [List.getElem?_map, hi, hid]
    · intro hid
      simp [List.getElem?_map, hi, hid]

theorem C4_contribute_reads_ledger_witness :
    (run (exampleLedger 2 fun _ => .ok (ledgerCampaign 900 false))
        (contribute exampleBigInt
          (exampleWorld [storedCampaign 1 "100", storedCampaign 2 "30"] 2).state 1)
        (exampleWorld [storedCampaign 1 "100", storedCampaign 2 "30"] 2)).state.campaigns =
      [storedCampaign 1 "900", storedCampaign 2 "30"] :=
  have h := C4_contribute_reads_ledger exampleBigInt
    (exampleLedger 2 fun _ => .ok (ledgerCampaign 900 false))
    (exampleWorld [storedCampaign 1 "100", storedCampaign 2 "30"] 2) 1 500
    { low := 500, high := 0 } 77 (ledgerCampaign 900 false)
    rfl (by decide) rfl rfl rfl rfl rfl
  List.ext_getElem? fun i =>
    match i with
    | 0 => ((h.2.2 0 (storedCampaign 1 "100") rfl).1 rfl).trans (by decide)
    | 1 => ((h.2.2 1 (storedCampaign 2 "30") rfl).2 (by decide)).trans (by decide)
    | _ + 2 => by
      rw [List.getElem?_eq_none (by rw [h.2.1]; simp [exampleWorld]),
        List.getElem?_eq_none (by simp)]

/-- C5: with the contract set, for each of `createCampaign`, `contribute`,
`claimFunds` and `claimRefund`: if the submission, the wait for confirmation or
the following re-read fails, the action (for `createCampaign`, together with
the render that follows it) ends with the campaigns list and the campaign count
unchanged, the action's error message set, and the loading flag false. -/
theorem C5_failed_action (BigInt : String → Option Int) (L : Ledger) (w : World)
    (hc : w.state.contract = true) :
    (∀ (bn : Int) (goal : Uint256),
      BigInt w.state.newCampaign.goal = some bn → bnToUint256 bn = .ok goal →
      failsAt L (.create_campaign goal w.state.newCampaign.deadline)
        L.get_campaign_count.isOk = true →
      EndsFailed "Failed to create campaign" w (createCampaignAndRefresh BigInt L w)) ∧
    (∀ (campaignId : Nat) (bn : Int) (amount : Uint256),
      w.state.contributionAmount ≠ "" →
      BigInt w.state.contributionAmount = some bn → bnToUint256 bn = .ok amount →
      failsAt L (.contribute campaignId amount) (L.get_campaign campaignId).isOk = true →
      EndsFailed "Failed to contribute to campaign" w
        (run L (contribute BigInt w.state campaignId) w)) ∧
    (∀ campaignId : Nat,
      failsAt L (.claim_funds campaignId) (L.get_campaign campaignId).isOk = true →
      EndsFailed "Failed to claim funds" w (run L (claimFunds w.state campaignId) w)) ∧
    (∀ campaignId : Nat,
      failsAt L (.claim_refund campaignId) (L.get_campaign campaignId).isOk = true →
      EndsFailed "Failed to claim refund" w (run L (claimRefund w.state campaignId) w)) := by
  refine ⟨?_, ?_, ?_, ?_⟩
  · intro bn goal hbn hgoal hf
    have h := createCampaign_fails BigInt L w hc bn goal hbn hgoal hf
    unfold createCampaignAndRefresh
    rw [fetchCampaignsEffect_same L _ _ (by rw [h]; rfl) (by rw [h]; rfl)]
    exact endsFailed_of_caught _ _ _ h
  · intro campaignId bn amount ha hbn hamount hf
    exact endsFailed_of_caught _ _ _
      (contribute_fails BigInt L w campaignId hc ha bn amount hbn hamount hf)
  · intro campaignId hf
    exact endsFailed_of_caught _ _ _ (claimFunds_fails L w campaignId hc hf)
  · intro campaignId hf
    exact endsFailed_of_caught _ _ _ (claimRefund_fails L w campaignId hc hf)

theorem C5_failed_action_witness :
    EndsFailed "Failed to create campaign" (exampleWorld [storedCampaign 1 "0"] 1)
        (createCampaignAndRefresh exampleBigInt
          (timingOutLedger 2 fun _ => .ok (ledgerCampaign 0 false))
          (exampleWorld [storedCampaign 1 "0"] 1)) ∧
      EndsFailed "Failed to claim refund" (exampleWorld [storedCampaign 1 "0"] 1)
        (run (timingOutLedger 2 fun _ => .ok (ledgerCampaign 0 false))
          (claimRefund (exampleWorld [storedCampaign 1 "0"] 1).state 1)
          (exampleWorld [storedCampaign 1 "0"] 1)) :=
  have h := C5_failed_action exampleBigInt
    (timingOutLedger 2 fun _ => .ok (ledgerCampaign 0 false))
    (exampleWorld [storedCampaign 1 "0"] 1) rfl
  ⟨h.1 1000 { low := 1000, high := 0 } rfl rfl rfl, h.2.2.2 1 rfl⟩

/-! ## Theorems: the refund attempt -/

/-- C6, counterexample: campaign 2 is stored with deadline 1999999999 and the time
is 1700000000 s, before the deadline.  `claimRefund(2)` nevertheless submits
`claim_refund(2)` to the ledger: on a ledger that accepts it, no error is
reported and the stored record is replaced; on a ledger that rejects it, the
request has still been sent and the error is the ledger-side "Failed to claim
refund". -/
theorem C6_counterexample :
    1700000000000 < 1000 * (storedCampaign 2 "0").deadline.value ∧
      (exampleWorld [storedCampaign 1 "0", storedCampaign 2 "0"] 2).state.campaigns[1]? =
        some (storedCampaign 2 "0") ∧
      (run (exampleLedger 2 fun _ => .ok (ledgerCampaign 0 false))
          (claimRefund (exampleWorld [storedCampaign 1 "0", storedCampaign 2 "0"] 2).state 2)
          (exampleWorld [storedCampaign 1 "0", storedCampaign 2 "0"] 2)).calls =
        [.invoke (.claim_refund 2), .waitForTransaction 77, .get_campaign 2] ∧
      (run (exampleLedger 2 fun _ => .ok (ledgerCampaign 0 false))
          (claimRefund (exampleWorld [storedCampaign 1 "0", storedCampaign 2 "0"] 2).state 2)
          (exampleWorld [storedCampaign 1 "0", storedCampaign 2 "0"] 2)).state.error = none ∧
      (run (exampleLedger 2 fun _ => .ok (ledgerCampaign 0 false))
          (claimRefund (exampleWorld [storedCampaign 1 "0", storedCampaign 2 "0"] 2).state 2)
          (exampleWorld [storedCampaign 1 "0", storedCampaign 2 "0"] 2)).state.campaigns ≠
        [storedCampaign 1 "0", storedCampaign 2 "0"] ∧
      (run (rejectingLedger fun _ => .ok (ledgerCampaign 0 false))
          (claimRefund (exampleWorld [storedCampaign 1 "0", storedCampaign 2 "0"] 2).state 2)
          (exampleWorld [storedCampaign 1 "0", storedCampaign 2 "0"] 2)).calls =
        [.invoke (.claim_refund 2)] ∧
      (run (rejectingLedger fun _ => .ok (ledgerCampaign 0 false))
          (claimRefund (exampleWorld [storedCampaign 1 "0", storedCampaign 2 "0"] 2).state 2)
          (exampleWorld [storedCampaign 1 "0", storedCampaign 2 "0"] 2)).state.error =
        some "Failed to claim refund" := by
  decide

/-- C6, amended: with the contract set, for every campaigns list and campaign id,
whatever the deadline of its record (now < deadline included), `claimRefund(id)`
makes no local check: its first act is to submit `claim_refund(id)` to the
ledger.  When the ledger rejects that submission the attempt fails with the
error "Failed to claim refund", no further request is sent, the campaigns list
and the campaign count are unchanged, and the loading flag is false. -/
theorem C6_claimRefund_unchecked (L : Ledger) (w : World) (campaignId : Nat)
    (hc : w.state.contract = true) :
    (∃ rest, (run L (claimRefund w.state campaignId) w).calls =
        w.calls ++ .invoke (.claim_refund campaignId) :: rest) ∧
      (∀ e, L.invoke (.claim_refund campaignId) = .error e →
        (run L (claimRefund w.state campaignId) w).calls =
            w.calls ++ [.invoke (.claim_refund campaignId)] ∧
          (run L (claimRefund w.state campaignId) w).state.error =
            some "Failed to claim refund" ∧
          (run L (claimRefund w.state campaignId) w).state.campaigns = w.state.campaigns ∧
          (run L (claimRefund w.state campaignId) w).state.campaignCount =
            w.state.campaignCount ∧
          (run L (claimRefund w.state campaignId) w).state.loading = false) := by
  constructor
  · simp only [claimRefund, hc, if_true, run]
    cases L.invoke (.claim_refund campaignId) with
    | error e => exact ⟨[], rfl⟩
    | ok tx =>
      simp only [run]
      cases L.waitForTransaction tx with
      | error e => exact ⟨[.waitForTransaction tx], by simp [failed, run, World.send]⟩
      | ok u =>
        simp only [run]
        cases L.get_campaign campaignId with
        | error e =>
          exact ⟨[.waitForTransaction tx, .get_campaign campaignId],
            by simp [failed, run, World.send]⟩
        | ok updated =>
          exact ⟨[.waitForTransaction tx, .get_campaign campaignId],
            by simp [run, World.send]⟩
  · intro e he
    simp only [claimRefund, hc, if_true, run, he]
    exact ⟨rfl, rfl, rfl, rfl, rfl⟩

theorem C6_claimRefund_unchecked_witness :
    (run (rejectingLedger fun _ => .ok (ledgerCampaign 0 false))
        (claimRefund (exampleWorld [storedCampaign 1 "0", storedCampaign 2 "0"] 2).state 2)
        (exampleWorld [storedCampaign 1 "0", storedCampaign 2 "0"] 2)).calls =
      [] ++ [.invoke (.claim_refund 2)] ∧
    (run (rejectingLedger fun _ => .ok (ledgerCampaign 0 false))
        (claimRefund (exampleWorld [storedCampaign 1 "0", storedCampaign 2 "0"] 2).state 2)
        (exampleWorld [storedCampaign 1 "0", storedCampaign 2 "0"] 2)).state.campaigns =
      [storedCampaign 1 "0", storedCampaign 2 "0"] :=
  have h := (C6_claimRefund_unchecked (rejectingLedger fun _ => .ok (ledgerCampaign 0 false))
    (exampleWorld [storedCampaign 1 "0", storedCampaign 2 "0"] 2) 2 rfl).2 "CallReverted" rfl
  ⟨h.1, h.2.2.1⟩

/-! ## Theorems: actions in flight -/

/-- C7, counterexample: a `contribute(7)` has submitted its transaction and awaits
confirmation; invoking `contribute(7)` again submits a second transaction, sets
no error, and leaves two runs in flight. -/
theorem C7_counterexample :
    (awaitingConfirmation exampleBigInt
        (idle (exampleWorld [storedCampaign 7 "0"] 7)) 7 77).pending.length = 1 ∧
      (awaitingConfirmation exampleBigInt
          (idle (exampleWorld [storedCampaign 7 "0"] 7)) 7 77).world.calls =
        [.invoke (.contribute 7 { low := 500, high := 0 }), .waitForTransaction 77] ∧
      (contributeAgain exampleBigInt
          (idle (exampleWorld [storedCampaign 7 "0"] 7)) 7 77).world.calls =
        [.invoke (.contribute 7 { low := 500, high := 0 }), .waitForTransaction 77,
          .invoke (.contribute 7 { low := 500, high := 0 })] ∧
      (contributeAgain exampleBigInt
          (idle (exampleWorld [storedCampaign 7 "0"] 7)) 7 77).world.state.error = none ∧
      (contributeAgain exampleBigInt
          (idle (exampleWorld [storedCampaign 7 "0"] 7)) 7 77).pending.length = 2 := by
  decide

/-- C7, amended: no in-flight record is kept and nothing is refused.  With the
contract set and an encodable contribution amount, invoking `contribute(id)`
while an earlier `contribute(id)` awaits confirmation submits a second
transaction at once, sets no error, and leaves both runs in flight; the first
action's progress and eventual store update are unaffected: its confirmation
and re-read store the same list as they would without the second call. -/
theorem C7_second_contribute (BigInt : String → Option Int) (c : Config) (campaignId : Nat)
    (bn : Int) (amount : Uint256) (tx : TxHash)
    (hc : c.world.state.contract = true) (ha : c.world.state.contributionAmount ≠ "")
    (hbn : BigInt c.world.state.contributionAmount = some bn)
    (hamount : bnToUint256 bn = .ok amount) :
    (awaitingConfirmation BigInt c campaignId tx).world.calls =
        c.world.calls ++ [.invoke (.contribute campaignId amount), .waitForTransaction tx] ∧
      (contributeAgain BigInt c campaignId tx).world.calls =
        c.world.calls ++ [.invoke (.contribute campaignId amount), .waitForTransaction tx,
          .invoke (.contribute campaignId amount)] ∧
      (contributeAgain BigInt c campaignId tx).world.state.error = c.world.state.error ∧
      (contributeAgain BigInt c campaignId tx).pending.length = c.pending.length + 2 ∧
      (∀ updated : LedgerCampaign,
        (deliver c.pending.length (.campaign (.ok updated))
          (deliver c.pending.length (.confirmed (.ok ()))
            (contributeAgain BigInt c campaignId tx))).world.state.campaigns =
          c.world.state.campaigns.map (fun r =>
            if r.id = campaignId then
              { r with amount_raised := .text (decimal (uint256ToBN updated.amount_raised)) }
            else r) ∧
        (deliver c.pending.length (.campaign (.ok updated))
          (deliver c.pending.length (.confirmed (.ok ()))
            (contributeAgain BigInt c campaignId tx))).world.state.campaigns =
        (deliver c.pending.length (.campaign (.ok updated))
          (deliver c.pending.length (.confirmed (.ok ()))
            (awaitingConfirmation BigInt c campaignId tx))).world.state.campaigns) := by
  obtain ⟨q1, hq1, hrest⟩ :=
    contribute_steps BigInt c.world.state campaignId bn amount hc ha hbn hamount
  obtain ⟨p1, q2, hp1, hap1, p2, q3, hp2, hap2, hfin⟩ := hrest tx
  -- the first run up to its wait for confirmation
  have h1 := start_suspended _ c _ q1 (hq1 c.world)
  have ha0 : awaitingConfirmation BigInt c campaignId tx =
      { world := { state := setLoading true c.world.state,
                   calls := c.world.calls ++
                     [.invoke (.contribute campaignId amount), .waitForTransaction tx] },
        pending := c.pending ++ [q2] } := by
    unfold awaitingConfirmation
    rw [deliver_suspended c.pending.length (.tx (.ok tx)) _ q1 p1 q2 _
      (by rw [h1]; exact getElem?_append_last _ _) hp1 (hap1 _), h1]
    simp only [set_append_last, World.send, List.append_assoc, List.singleton_append]
  -- the second invocation
  obtain ⟨q1b, hq1b, -⟩ :=
    contribute_steps BigInt (awaitingConfirmation BigInt c campaignId tx).world.state
      campaignId bn amount (by rw [ha0]; exact hc) (by rw [ha0]; exact ha)
      (by rw [ha0]; exact hbn) hamount
  have hb0 : contributeAgain BigInt c campaignId tx =
      { world := { state := setLoading true c.world.state,
                   calls := c.world.calls ++
                     [.invoke (.contribute campaignId amount), .waitForTransaction tx,
                      .invoke (.contribute campaignId amount)] },
        pending := c.pending ++ [q2, q1b] } := by
    unfold contributeAgain
    rw [start_suspended _ _ _ q1b (hq1b _), ha0]
    simp [setLoading]
  refine ⟨by rw [ha0], by rw [hb0], by rw [hb0]; rfl, by rw [hb0]; simp, fun updated => ?_⟩
  obtain ⟨p3, hp3, hap3⟩ := hfin updated
  have hd1 : deliver c.pending.length (.confirmed (.ok ()))
      (contributeAgain BigInt c campaignId tx) = _ :=
    deliver_suspended c.pending.length (.confirmed (.ok ())) _ q2 p2 q3 _
      (by rw [hb0]; exact getElem?_append_two _ _ _) hp2 (hap2 _)
  have hd2 : deliver c.pending.length (.campaign (.ok updated))
      (deliver c.pending.length (.confirmed (.ok ()))
        (contributeAgain BigInt c campaignId tx)) = _ :=
    deliver_finished c.pending.length (.campaign (.ok updated)) _ q3 p3 _
      (by rw [hd1, hb0]; simp only [set_append_two]; exact getElem?_append_two _ _ _)
      hp3 (hap3 _)
  have he1 : deliver c.pending.length (.confirmed (.ok ()))
      (awaitingConfirmation BigInt c campaignId tx) = _ :=
    deliver_suspended c.pending.length (.confirmed (.ok ())) _ q2 p2 q3 _
      (by rw [ha0]; exact getElem?_append_last _ _) hp2 (hap2 _)
  have he2 : deliver c.pending.length (.campaign (.ok updated))
      (deliver c.pending.length (.confirmed (.ok ()))
        (awaitingConfirmation BigInt c campaignId tx)) = _ :=
    deliver_finished c.pending.length (.campaign (.ok updated)) _ q3 p3 _
      (by rw [he1, ha0]; simp only [set_append_last]; exact getElem?_append_last _ _)
      hp3 (hap3 _)
  rw [hd2, he2]
  exact ⟨rfl, rfl⟩

theorem C7_second_contribute_witness :
    (contributeAgain exampleBigInt
        (idle (exampleWorld [storedCampaign 7 "0"] 7)) 7 77).world.calls =
      [] ++ [.invoke (.contribute 7 { low := 500, high := 0 }), .waitForTransaction 77,
        .invoke (.contribute 7 { low := 500, high := 0 })] ∧
    (contributeAgain exampleBigInt
        (idle (exampleWorld [storedCampaign 7 "0"] 7)) 7 77).world.state.error = none :=
  have h := C7_second_contribute exampleBigInt (idle (exampleWorld [storedCampaign 7 "0"] 7))
    7 500 { low := 500, high := 0 } 77 rfl (by decide) rfl rfl
  ⟨h.2.1, h.2.2.1⟩

/-! ## Theorems: the targeted refresh -/

/-- C8, counterexample: the stored record of campaign 1 is unclaimed with
"0" raised and the ledger answers the re-read with 500 raised and claimed.
After `contribute(1)` the stored record is still unclaimed, whereas a full
refresh builds a claimed record.  After `claimFunds(1)` or `claimRefund(1)` the
stored record has the id, the creator and the claimed flag of the full-refresh
record, but its goal, deadline and amount raised are the ledger's unconverted
values, not the decimal strings and the number a full refresh stores. -/
theorem C8_counterexample :
    (run (exampleLedger 1 fun _ => .ok (ledgerCampaign 500 true))
        (contribute exampleBigInt (exampleWorld [storedCampaign 1 "0"] 1).state 1)
        (exampleWorld [storedCampaign 1 "0"] 1)).state.campaigns =
      [storedCampaign 1 "500"] ∧
    (run (exampleLedger 1 fun _ => .ok (ledgerCampaign 500 true))
        (fetchCampaigns (exampleWorld [storedCampaign 1 "0"] 1).state)
        (exampleWorld [storedCampaign 1 "0"] 1)).state.campaigns =
      [fetchedCampaign 1 (ledgerCampaign 500 true)] ∧
    [storedCampaign 1 "500"] ≠ [fetchedCampaign 1 (ledgerCampaign 500 true)] ∧
    (run (exampleLedger 1 fun _ => .ok (ledgerCampaign 500 true))
        (claimFunds (exampleWorld [storedCampaign 1 "0"] 1).state 1)
        (exampleWorld [storedCampaign 1 "0"] 1)).state.campaigns =
      [{ id := 1, creator := 7, goal := .words { low := 1000, high := 0 },
         deadline := .bigint 1999999999, amount_raised := .words { low := 500, high := 0 },
         claimed := true }] ∧
    (run (exampleLedger 1 fun _ => .ok (ledgerCampaign 500 true))
        (claimRefund (exampleWorld [storedCampaign 1 "0"] 1).state 1)
        (exampleWorld [storedCampaign 1 "0"] 1)).state.campaigns =
      [{ id := 1, creator := 7, goal := .words { low := 1000, high := 0 },
         deadline := .bigint 1999999999, amount_raised := .words { low := 500, high := 0 },
         claimed := true }] ∧
    fetchedCampaign 1 (ledgerCampaign 500 true) =
      { id := 1, creator := 7, goal := .text "1000", deadline := .number 1999999999,
        amount_raised := .text "500", claimed := true } := by
  decide

/-- C8, amended: with the contract set, a confirmed transaction and a successful
re-read of `id`: after `contribute` every record with that id has its
`amount_raised` replaced by the value a full refresh would store in that field
for the same ledger answer, its other fields being kept, and all other records
are unchanged; after `claimFunds` and after `claimRefund` every record with that
id has the id, the creator and the claimed flag of the record a full refresh
would build from the same ledger answer, and all other records are unchanged.
(What `claimFunds` and `claimRefund` store as goal, deadline and amount raised
is not stated here: they store the ledger's values unconverted, where the
sibling `fetchCampaigns` converts them.) -/
theorem C8_targeted_refresh (BigInt : String → Option Int) (L : Ledger) (w : World)
    (campaignId : Nat) (tx : TxHash) (updated : LedgerCampaign)
    (hc : w.state.contract = true)
    (hwait : L.waitForTransaction tx = .ok ())
    (hread : L.get_campaign campaignId = .ok updated) :
    (∀ (bn : Int) (amount : Uint256), w.state.contributionAmount ≠ "" →
      BigInt w.state.contributionAmount = some bn → bnToUint256 bn = .ok amount →
      L.invoke (.contribute campaignId amount) = .ok tx →
      (run L (contribute BigInt w.state campaignId) w).state.campaigns =
        w.state.campaigns.map fun c =>
          if c.id = campaignId then
            { c with amount_raised := (fetchedCampaign campaignId updated).amount_raised }
          else c) ∧
    (L.invoke (.claim_funds campaignId) = .ok tx →
      (run L (claimFunds w.state campaignId) w).state.campaigns.length =
          w.state.campaigns.length ∧
        ∀ (i : Nat) (c : Campaign), w.state.campaigns[i]? = some c →
          (c.id = campaignId →
            ∃ stored : Campaign,
              (run L (claimFunds w.state campaignId) w).state.campaigns[i]? = some stored ∧
              stored.id = (fetchedCampaign campaignId updated).id ∧
              stored.creator = (fetchedCampaign campaignId updated).creator ∧
              stored.claimed = (fetchedCampaign campaignId updated).claimed) ∧
          (c.id ≠ campaignId →
            (run L (claimFunds w.state campaignId) w).state.campaigns[i]? = some c)) ∧
    (L.invoke (.claim_refund campaignId) = .ok tx →
      (run L (claimRefund w.state campaignId) w).state.campaigns.length =
          w.state.campaigns.length ∧
        ∀ (i : Nat) (c : Campaign), w.state.campaigns[i]? = some c →
          (c.id = campaignId →
            ∃ stored : Campaign,
              (run L (claimRefund w.state campaignId) w).state.campaigns[i]? = some stored ∧
              stored.id = (fetchedCampaign campaignId updated).id ∧
              stored.creator = (fetchedCampaign campaignId updated).creator ∧
              stored.claimed = (fetchedCampaign campaignId updated).claimed) ∧
          (c.id ≠ campaignId →
            (run L (claimRefund w.state campaignId) w).state.campaigns[i]? = some c)) := by
  refine ⟨?_, ?_, ?_⟩
  · intro bn amount ha hbn hamount htx
    simp only [contribute, hc, ha, ne_eq, not_false_eq_true, and_self, if_true, run, hbn,
      hamount, htx, hwait, hread, World.send]
    rfl
  · intro htx
    have h : (run L (claimFunds w.state campaignId) w).state.campaigns =
        w.state.campaigns.map fun c =>
          if c.id = campaignId then spread c updated else c := by
      simp only [claimFunds, hc, if_true, run, htx, hwait, hread, World.send]
      rfl
    rw [h]
    refine ⟨by simp, fun i c hi => ⟨fun hid => ?_, fun hid => ?_⟩⟩
    · exact ⟨spread c updated, by simp [List.getElem?_map, hi, hid], hid, rfl, rfl⟩
    · simp [List.getElem?_map, hi, hid]
  · intro htx
    have h : (run L (claimRefund w.state campaignId) w).state.campaigns =
        w.state.campaigns.map fun c =>
          if c.id = campaignId then spread c updated else c := by
      simp only [claimRefund, hc, if_true, run, htx, hwait, hread, World.send]
      rfl
    rw [h]
    refine ⟨by simp, fun i c hi => ⟨fun hid => ?_, fun hid => ?_⟩⟩
    · exact ⟨spread c updated, by simp [List.getElem?_map, hi, hid], hid, rfl, rfl⟩
    · simp [List.getElem?_map, hi, hid]

theorem C8_targeted_refresh_witness :
    (run (exampleLedger 2 fun _ => .ok (ledgerCampaign 500 true))
        (contribute exampleBigInt
          (exampleWorld [storedCampaign 1 "0", storedCampaign 2 "30"] 2).state 1)
        (exampleWorld [storedCampaign 1 "0", storedCampaign 2 "30"] 2)).state.campaigns =
      [storedCampaign 1 "500", storedCampaign 2 "30"] ∧
    (run (exampleLedger 2 fun _ => .ok (ledgerCampaign 500 true))
        (claimFunds (exampleWorld [storedCampaign 1 "0", storedCampaign 2 "30"] 2).state 1)
        (exampleWorld [storedCampaign 1 "0", storedCampaign 2 "30"] 2)).state.campaigns[1]? =
      some (storedCampaign 2 "30") :=
  ⟨((C8_targeted_refresh exampleBigInt
      (exampleLedger 2 fun _ => .ok (ledgerCampaign 500 true))
      (exampleWorld [storedCampaign 1 "0", storedCampaign 2 "30"] 2) 1 77
      (ledgerCampaign 500 true) rfl rfl rfl).1 500 { low := 500, high := 0 }
      (by decide) rfl rfl rfl).trans (by decide),
   ((C8_targeted_refresh exampleBigInt
      (exampleLedger 2 fun _ => .ok (ledgerCampaign 500 true))
      (exampleWorld [storedCampaign 1 "0", storedCampaign 2 "30"] 2) 1 77
      (ledgerCampaign 500 true) rfl rfl rfl).2.1 rfl).2 1 (storedCampaign 2 "30") rfl
      |>.2 (by decide)⟩

/-! ## Theorems: overlapping refreshes -/

/-- C9, counterexample: refresh A reads 0 raised for campaign 1, refresh B, started
later, reads 500; B completes first and stores "500", then A completes and the
list holds A's "0" again. -/
theorem C9_counterexample :
    (newerRefreshDone (idle (exampleWorld [] 1)) (exampleWorld [] 1).state
        (exampleWorld [] 1).state
        (fun _ => ledgerCampaign 500 false)).world.state.campaigns =
      [storedCampaign 1 "500"] ∧
    (olderRefreshDone (idle (exampleWorld [] 1)) (exampleWorld [] 1).state
        (exampleWorld [] 1).state (fun _ => ledgerCampaign 0 false)
        (fun _ => ledgerCampaign 500 false)).world.state.campaigns =
      [storedCampaign 1 "0"] ∧
    [storedCampaign 1 "0"] ≠ [storedCampaign 1 "500"] := by
  decide

/-- C9, amended: when full refresh A starts, full refresh B starts before A
completes (both with a count below 2 ^ 32, so that they do send their requests
and wait), B completes first and A completes after it (all fetches succeeding),
the campaigns list holds B's result after B's completion and A's result after
A's completion: the completion of A overwrites the list written by B, and no
run is left in flight. -/
theorem C9_last_completion_wins (c : Config) (rA rB : State)
    (rawA rawB : Nat → LedgerCampaign)
    (hA : rA.contract = true ∧ 0 < rA.campaignCount ∧ rA.campaignCount < 2 ^ 32)
    (hB : rB.contract = true ∧ 0 < rB.campaignCount ∧ rB.campaignCount < 2 ^ 32) :
    (newerRefreshDone c rA rB rawB).world.state.campaigns =
        (List.range rB.campaignCount).map (fun i => fetchedCampaign (i + 1) (rawB (i + 1))) ∧
      (olderRefreshDone c rA rB rawA rawB).world.state.campaigns =
        (List.range rA.campaignCount).map (fun i => fetchedCampaign (i + 1) (rawA (i + 1))) ∧
      (olderRefreshDone c rA rB rawA rawB).pending = c.pending := by
  obtain ⟨qA, hqA, hrA⟩ := fetchCampaigns_steps rA hA.1 hA.2.1 hA.2.2
  obtain ⟨qB, hqB, hrB⟩ := fetchCampaigns_steps rB hB.1 hB.2.1 hB.2.2
  obtain ⟨pA, hpA, haA⟩ := hrA rawA
  obtain ⟨pB, hpB, haB⟩ := hrB rawB
  have h1 := start_suspended _ c _ qA (hqA c.world)
  have h2 := start_suspended (fetchCampaigns rB) (start (fetchCampaigns rA) c) _ qB (hqB _)
  have h3 : newerRefreshDone c rA rB rawB = _ :=
    deliver_finished (c.pending.length + 1) (.campaigns fun id => .ok (rawB id))
      (start (fetchCampaigns rB) (start (fetchCampaigns rA) c)) qB pB _
      (by rw [h2, h1]; simp only [List.append_assoc, List.singleton_append]
          exact getElem?_append_pair _ _ _) hpB (haB _)
  have h3p : (newerRefreshDone c rA rB rawB).pending = c.pending ++ [qA] := by
    rw [h3, h2, h1]
    simp only [List.append_assoc, List.singleton_append]
    exact eraseIdx_append_pair _ _ _
  have h4 : olderRefreshDone c rA rB rawA rawB = _ :=
    deliver_finished c.pending.length (.campaigns fun id => .ok (rawA id))
      (newerRefreshDone c rA rB rawB) qA pA _
      (by rw [h3p]; exact getElem?_append_last _ _) hpA (haA _)
  refine ⟨?_, ?_, ?_⟩
  · rw [h3]; rfl
  · rw [h4]; rfl
  · rw [h4]
    show (newerRefreshDone c rA rB rawB).pending.eraseIdx c.pending.length = c.pending
    rw [h3p]
    exact (List.eraseIdx_append_of_length_le (le_refl _) [qA]).trans (by simp)

theorem C9_last_completion_wins_witness :
    (olderRefreshDone (idle (exampleWorld [] 1)) (exampleWorld [] 1).state
        (exampleWorld [] 1).state (fun _ => ledgerCampaign 0 false)
        (fun _ => ledgerCampaign 500 false)).world.state.campaigns =
      (List.range 1).map (fun i => fetchedCampaign (i + 1) (ledgerCampaign 0 false)) :=
  (C9_last_completion_wins (idle (exampleWorld [] 1)) (exampleWorld [] 1).state
    (exampleWorld [] 1).state (fun _ => ledgerCampaign 0 false)
    (fun _ => ledgerCampaign 500 false) ⟨rfl, by decide, by decide⟩
    ⟨rfl, by decide, by decide⟩).2.1

/-! ## Theorems: a campaign count of zero -/

/-- With the loading flag false, no error and at least one campaign stored, the
render throws: the page with campaign rows is never obtained. -/
theorem render_with_campaign_throws (nowMs : Nat) (s : State) (campaign : Campaign)
    (rest : List Campaign) (hl : s.loading = false) (he : s.error = none)
    (hcs : s.campaigns = campaign :: rest) :
    ∃ exception, render nowMs s = .thrown exception := by
  unfold render
  simp only [hl, he, hcs, Option.any_none, Bool.false_eq_true, if_false]
  cases campaign.deadline with
  | number n => exact ⟨_, rfl⟩
  | bigint n => exact ⟨_, rfl⟩

/-- With a count of 2 on the ledger the mounted component does come to rest
loaded: both records stored, loading cleared. -/
theorem mount_two_campaigns :
    (mount true true (exampleLedger 2 fun _ => .ok (ledgerCampaign 0 false))).state.campaigns =
        [storedCampaign 1 "0", storedCampaign 2 "0"] ∧
      (mount true true (exampleLedger 2 fun _ => .ok (ledgerCampaign 0 false))).state.loading =
        false ∧
      (mount true true (exampleLedger 2 fun _ => .ok (ledgerCampaign 0 false))).calls =
        [.get_campaign_count, .get_campaign 1, .get_campaign 2] := by
  decide

/-- C10: when the campaign count is 0, `fetchCampaigns` sends no request and
changes nothing (state and sent requests are as before); and when the count
read from the ledger after mount is 0, the component comes to rest having sent
only the count request, with an empty campaigns list, no error, and the loading
flag still true, so that it renders the loading text. -/
theorem C10_zero_count (L : Ledger) (w : World) (h0 : w.state.campaignCount = 0) :
    run L (fetchCampaigns w.state) w = w ∧
      (L.get_campaign_count = .ok 0 →
        (mount true true L).state.loading = true ∧
          (mount true true L).state.campaigns = [] ∧
          (mount true true L).state.error = none ∧
          (mount true true L).calls = [.get_campaign_count] ∧
          ∀ nowMs, render nowMs (mount true true L).state = .loading) := by
  constructor
  · simp [fetchCampaigns, h0, run]
  · intro hcount
    have hm : mount true true L =
        { state := setCampaignCount 0 (setContract true initialState),
          calls := [.get_campaign_count] } := by
      simp [mount, idle, start, deliver, resume, advance, initContract, fetchCampaignCount,
        fetchCampaigns, run, initialState, setContract, hcount, fetchCampaignsEffect,
        World.send, setCampaignCount, Number]
    rw [hm]
    exact ⟨rfl, rfl, rfl, rfl, fun _ => rfl⟩

theorem C10_zero_count_witness :
    run (exampleLedger 0 fun _ => .error "NotFound")
        (fetchCampaigns (exampleWorld [] 0).state) (exampleWorld [] 0) = exampleWorld [] 0 ∧
      (mount true true (exampleLedger 0 fun _ => .error "NotFound")).state.loading = true :=
  have h := C10_zero_count (exampleLedger 0 fun _ => .error "NotFound") (exampleWorld [] 0) rfl
  ⟨h.1, (h.2 rfl).1⟩

end StarkRaise
